import Mathlib

/-!
# Verification of the panda-py motion-generator subsystem

Shallow embedding of `JointMotionGenerator` (src/unnamed/part_000) and the
target-resolution pipeline of `CartesianMotionGenerator`
(src/include/motion/cartesian_motion_generator.hpp), together with theorems
settling the behavioural claims about waypoint queueing, reload semantics,
cooldown policy, error classification and reference-frame resolution.

Modelling conventions:
* machine doubles are modelled as rationals (`ℚ`); no floating-point rounding
  is relevant to the claims proved here;
* the external ruckig OTG solver (`trajectory_generator_.update`) is a black
  box: the step function is parameterised by a function
  `otg : OTGInput → RuckigResult × OTGOutput`;
* `franka::Duration` is a number of milliseconds (`ℕ`); `toSec` divides by
  1000, `toMSec` is the identity;
* a `franka::JointPositions` return value, possibly wrapped in
  `franka::MotionFinished`, is a pair of the 7-vector and the wrapper flag;
* the Cartesian 7-component OTG position vector (3 translation components
  followed by the 4 components of a unit quaternion) is represented by the
  rigid pose it encodes, since the Eigen matrix↔quaternion conversion is an
  external bijective re-encoding involving square roots.
-/

namespace Motion

/-- A 7-component kinematic vector (joint angles, or xyz + quaternion). -/
abbrev Vector7 := Fin 7 → ℚ

/-- The all-zeros 7-vector, `toStd(Vector7d::Zero())` in the source. -/
def zero7 : Vector7 := fun _ => 0

/-- The result type of the external ruckig OTG solver (`ruckig::Result`).
Besides `Working` and `Finished`, the library distinguishes a generic
`Error` value from several specific error codes (invalid input, trajectory
duration, positional limits, execution-time and synchronization
calculation). -/
inductive RuckigResult where
  | Working
  | Finished
  | Error
  | ErrorInvalidInput
  | ErrorTrajectoryDuration
  | ErrorPositionalLimits
  | ErrorExecutionTimeCalculation
  | ErrorSynchronizationCalculation
deriving DecidableEq, Repr

/-- A rigid pose (`Eigen::Isometry3d`): rotation matrix and translation. -/
structure Pose where
  rot : Fin 3 → Fin 3 → ℚ
  trans : Fin 3 → ℚ
deriving DecidableEq

/-- Composition of rigid poses, `a * b` on `Eigen::Isometry3d`. -/
def Pose.comp (a b : Pose) : Pose where
  rot := fun i k => ∑ j : Fin 3, a.rot i j * b.rot j k
  trans := fun i => (∑ j : Fin 3, a.rot i j * b.trans j) + a.trans i

/-- A pure translation pose (identity rotation). -/
def Pose.ofTranslation (d : Fin 3 → ℚ) : Pose where
  rot := fun i j => if i = j then 1 else 0
  trans := d

/-- The fields of `franka::RobotState` read by the generators: measured and
commanded joint positions, measured and commanded end-effector poses. -/
structure RobotState where
  q : Vector7
  q_d : Vector7
  O_T_EE : Pose
  O_T_EE_c : Pose
deriving DecidableEq

/-- Modelled from the spec: the manipulator-session object (`panda.h` is not
among the provided sources).  It owns the process-wide motion-profile scale
factors (`velocity_rel`, `acceleration_rel`, `jerk_rel`, default 1.0) and the
per-axis hard limits referenced by `setProfile`. -/
structure Panda where
  velocity_rel : ℚ
  acceleration_rel : ℚ
  jerk_rel : ℚ
  max_joint_velocity : Vector7
  max_joint_acceleration : Vector7
  max_joint_jerk : Vector7
  max_translation_velocity : ℚ
  max_translation_acceleration : ℚ
  max_translation_jerk : ℚ
  max_rotation_velocity : ℚ
  max_rotation_acceleration : ℚ
  max_rotation_jerk : ℚ
deriving DecidableEq

/-- Modelled from the spec: `JointMotion` (`motion/joint_motion.hpp` is not
among the provided sources) — a desired 7-vector of joint angles with
per-waypoint motion-profile multipliers defaulting to 1.0. -/
structure JointMotion where
  target : Vector7
  velocity_rel : ℚ
  acceleration_rel : ℚ
  jerk_rel : ℚ
deriving DecidableEq

/-- The one-argument constructor `JointMotion(target)` with the spec's
default profile multipliers of 1.0. -/
def JointMotion.hold (q : Vector7) : JointMotion := ⟨q, 1, 1, 1⟩

/-- Reference frame of a Cartesian target (`ReferenceFrame`, values
`GLOBAL = 0` and `RELATIVE = 1` in the binding interface). -/
inductive ReferenceFrame where
  | GLOBAL
  | RELATIVE
deriving DecidableEq, Repr

/-- Modelled from the spec: `CartesianMotion`
(`motion/cartesian_motion.hpp` is not among the provided sources) — a
desired end-effector pose, a reference-frame tag, and per-waypoint profile
multipliers defaulting to 1.0. -/
structure CartesianMotion where
  target : Pose
  reference_frame : ReferenceFrame
  velocity_rel : ℚ
  acceleration_rel : ℚ
  jerk_rel : ℚ
deriving DecidableEq

/-- The one-argument constructor `CartesianMotion(pose)` with the default
(GLOBAL) reference frame and unit profile multipliers. -/
def CartesianMotion.hold (p : Pose) : CartesianMotion :=
  ⟨p, ReferenceFrame.GLOBAL, 1, 1, 1⟩

/-- `ruckig::InputParameter<7>`: current kinematic state, target kinematic
state, and the absolute per-axis limits. -/
structure OTGInput where
  current_position : Vector7
  current_velocity : Vector7
  current_acceleration : Vector7
  target_position : Vector7
  target_velocity : Vector7
  target_acceleration : Vector7
  max_velocity : Vector7
  max_acceleration : Vector7
  max_jerk : Vector7
deriving DecidableEq

/-- `ruckig::OutputParameter<7>`: the next interpolated kinematic state. -/
structure OTGOutput where
  new_position : Vector7
  new_velocity : Vector7
  new_acceleration : Vector7
deriving DecidableEq

/-- The external OTG solver `trajectory_generator_.update`, as a black box
from inputs to a result code and an output block. -/
abbrev OTG := OTGInput → RuckigResult × OTGOutput

/-- A `franka::JointPositions` command, with `motion_finished` recording
whether it was wrapped in `franka::MotionFinished`. -/
structure JointCommand where
  q : Vector7
  motion_finished : Bool
deriving DecidableEq

/-- `cooldown_iterations`: the fixed cooldown budget of 5 extra ticks. -/
def cooldown_iterations : ℕ := 5

/-- The mutable state of a `JointMotionGenerator` (src/unnamed/part_000):
the session object pointer `panda_`, the elapsed-time counter of the
`Generator` base class, the guarded waypoint queue, the currently loaded
waypoint, the OTG parameter blocks and last result, and the
reload/keep-running/finished flags with the cooldown counter. -/
structure JointMotionGenerator where
  panda : Panda
  time : ℚ
  waypoints : List JointMotion
  current_waypoint : Option JointMotion
  input_para : OTGInput
  output_para : OTGOutput
  result : RuckigResult
  reload : Bool
  keep_running : Bool
  motion_finished : Bool
  current_cooldown_iteration : ℕ
deriving DecidableEq

namespace JointMotionGenerator

/-- `addWaypoint`: push the waypoint onto the queue and set the reload
flag (src/unnamed/part_000, lines 33–38). -/
def addWaypoint (st : JointMotionGenerator) (w : JointMotion) :
    JointMotionGenerator :=
  { st with waypoints := st.waypoints ++ [w], reload := true }

/-- `addWaypoints`: push every waypoint onto the queue and set the reload
flag (src/unnamed/part_000, lines 40–48). -/
def addWaypoints (st : JointMotionGenerator) (ws : List JointMotion) :
    JointMotionGenerator :=
  { st with waypoints := st.waypoints ++ ws, reload := true }

/-- `clearWaypoints`: pop every waypoint and set the reload flag
(src/unnamed/part_000, lines 50–58). -/
def clearWaypoints (st : JointMotionGenerator) : JointMotionGenerator :=
  { st with waypoints := [], reload := true }

/-- `setProfile`: map relative profile multipliers to absolute per-axis
limits (src/unnamed/part_000, lines 173–186). -/
def setProfile (st : JointMotionGenerator) (velocity_rel acceleration_rel jerk_rel : ℚ) :
    JointMotionGenerator :=
  { st with input_para := { st.input_para with
      max_velocity := fun dof =>
        st.panda.max_joint_velocity dof * st.panda.velocity_rel * velocity_rel
      max_acceleration := fun dof =>
        (3/10) * st.panda.max_joint_acceleration dof * st.panda.acceleration_rel *
          acceleration_rel
      max_jerk := fun dof =>
        (3/10) * st.panda.max_joint_jerk dof * st.panda.jerk_rel * jerk_rel } }

/-- `setInputCurrent`: seed the solver's current kinematic state from the
measured joint positions with zero velocity and acceleration
(src/unnamed/part_000, lines 188–196). -/
def setInputCurrent (st : JointMotionGenerator) (robot_state : RobotState) :
    JointMotionGenerator :=
  { st with input_para := { st.input_para with
      current_position := robot_state.q
      current_velocity := zero7
      current_acceleration := zero7 } }

/-- `setInputTarget`: write the waypoint's target with zero target velocity
and acceleration and apply its profile multipliers
(src/unnamed/part_000, lines 198–205). -/
def setInputTarget (st : JointMotionGenerator) (waypoint : JointMotion) :
    JointMotionGenerator :=
  setProfile
    { st with input_para := { st.input_para with
        target_position := waypoint.target
        target_velocity := zero7
        target_acceleration := zero7 } }
    waypoint.velocity_rel waypoint.acceleration_rel waypoint.jerk_rel

/-- `start`: store the session pointer, arm the reload flag, clear the
finished flag, seed current state from measurement, set the target to the
commanded joint positions, and apply unit profile scaling
(src/unnamed/part_000, lines 60–74). -/
def start (st : JointMotionGenerator) (robot : Panda) (robot_state : RobotState) :
    JointMotionGenerator :=
  setProfile
    { setInputCurrent { st with panda := robot, reload := true, motion_finished := false }
        robot_state with
      input_para := { (setInputCurrent
          { st with panda := robot, reload := true, motion_finished := false }
          robot_state).input_para with
        target_position := robot_state.q_d
        target_velocity := zero7
        target_acceleration := zero7 } }
    1 1 1

/-- `stop`: request the winding-down phase by setting the finished flag
(src/unnamed/part_000, lines 76–80). -/
def stop (st : JointMotionGenerator) (_robot_state : RobotState) :
    JointMotionGenerator :=
  { st with motion_finished := true }

/-- `isRunning` (src/unnamed/part_000, line 154). -/
def isRunning (st : JointMotionGenerator) : Bool := !st.motion_finished

/-- `loadNextWaypoint`: pop the front waypoint under the lock, or synthesize
a hold target `JointMotion(robot_state.q_d)` when the queue is empty, then
install it as the solver target (src/unnamed/part_000, lines 207–222). -/
def loadNextWaypoint (st : JointMotionGenerator) (robot_state : RobotState) :
    JointMotionGenerator :=
  match st.waypoints with
  | [] =>
      setInputTarget
        { st with current_waypoint := some (JointMotion.hold robot_state.q_d) }
        (JointMotion.hold robot_state.q_d)
  | w :: rest =>
      setInputTarget
        { st with current_waypoint := some w, waypoints := rest } w

/-- The reload check at the top of each sub-step: `loadNextWaypoint` then
`reload_ = false` (src/unnamed/part_000, lines 105–109). -/
def reloadIfNeeded (st : JointMotionGenerator) (robot_state : RobotState) :
    JointMotionGenerator :=
  if st.reload then { st.loadNextWaypoint robot_state with reload := false } else st

/-- The solver call `result = trajectory_generator_.update(input_para_,
output_para_)` (src/unnamed/part_000, line 113). -/
def applyUpdate (otg : OTG) (st : JointMotionGenerator) : JointMotionGenerator :=
  { st with result := (otg st.input_para).1, output_para := (otg st.input_para).2 }

/-- `output_para_.pass_to_input(input_para_)`: feed the solver's output back
as the next sub-step's current state (src/unnamed/part_000, line 148). -/
def pass_to_input (st : JointMotionGenerator) : JointMotionGenerator :=
  { st with input_para := { st.input_para with
      current_position := st.output_para.new_position
      current_velocity := st.output_para.new_velocity
      current_acceleration := st.output_para.new_acceleration } }

/-- The sub-step loop of `step` (src/unnamed/part_000, lines 102–151),
recursing on the number of remaining sub-steps.  Classification of the
solver result: `Finished` with a non-empty queue arms the reload flag and
continues; `Finished` with an empty queue, when not configured to keep
running, performs one cooldown emission or, once the budget is exhausted,
returns the motion-finished sentinel; exactly the generic `Error` value
returns the sentinel immediately; every other result falls through to
`pass_to_input` and the next sub-step. -/
def stepLoop (otg : OTG) (robot_state : RobotState) :
    JointMotionGenerator → ℕ → JointMotionGenerator × JointCommand
  | st, 0 => (st, ⟨st.output_para.new_position, false⟩)
  | st, n + 1 =>
    let st2 := applyUpdate otg (reloadIfNeeded st robot_state)
    if st2.result = RuckigResult.Finished then
      if st2.waypoints = [] then
        if st2.keep_running then
          stepLoop otg robot_state st2.pass_to_input n
        else if st2.current_cooldown_iteration < cooldown_iterations then
          ({ st2 with current_cooldown_iteration := st2.current_cooldown_iteration + 1 },
            ⟨st2.output_para.new_position, false⟩)
        else
          ({ st2 with motion_finished := true },
            ⟨st2.output_para.new_position, true⟩)
      else
        stepLoop otg robot_state ({ st2 with reload := true }).pass_to_input n
    else if st2.result = RuckigResult.Error then
      ({ st2 with motion_finished := true },
        ⟨st2.output_para.new_position, true⟩)
    else
      stepLoop otg robot_state st2.pass_to_input n

/-- `step` (src/unnamed/part_000, lines 82–152): advance the elapsed time,
compute the sub-step count `max(period in ms, 1)`, emit the
cooldown/finished behaviour when the finished flag is already set, and
otherwise run the sub-step loop.  `period_msec` is the tick duration in
whole milliseconds. -/
def step (otg : OTG) (st : JointMotionGenerator) (robot_state : RobotState)
    (period_msec : ℕ) : JointMotionGenerator × JointCommand :=
  let st1 : JointMotionGenerator :=
    { st with time := st.time + (period_msec : ℚ) / 1000 }
  if st1.motion_finished then
    if st1.current_cooldown_iteration < cooldown_iterations then
      ({ st1 with current_cooldown_iteration := st1.current_cooldown_iteration + 1 },
        ⟨robot_state.q_d, false⟩)
    else
      (st1, ⟨robot_state.q_d, true⟩)
  else
    stepLoop otg robot_state st1 (max period_msec 1)

/-- A run of the real-time loop: fold `step` over a list of per-tick inputs
(measured robot state and tick duration), collecting the emitted commands. -/
def run (otg : OTG) : JointMotionGenerator → List (RobotState × ℕ) →
    JointMotionGenerator × List JointCommand
  | st, [] => (st, [])
  | st, (robot_state, period) :: rest =>
    let r := step otg st robot_state period
    let rr := run otg r.1 rest
    (rr.1, r.2 :: rr.2)

end JointMotionGenerator

/-- The Cartesian analogue of `ruckig::InputParameter<7>`
(src/include/motion/cartesian_motion_generator.hpp): the 7-component
position vectors (translation + unit quaternion) are represented by the
poses they encode. -/
structure CartOTGInput where
  current_pose : Pose
  current_velocity : Vector7
  current_acceleration : Vector7
  target_pose : Pose
  target_velocity : Vector7
  target_acceleration : Vector7
  max_velocity : Vector7
  max_acceleration : Vector7
  max_jerk : Vector7
deriving DecidableEq

/-- The state of a `CartesianMotionGenerator`
(src/include/motion/cartesian_motion_generator.hpp) as far as waypoint
loading and target resolution are concerned. -/
structure CartesianMotionGenerator where
  panda : Panda
  waypoints : List CartesianMotion
  current_waypoint : Option CartesianMotion
  input_para : CartOTGInput
  reload : Bool
  keep_running : Bool
  motion_finished : Bool
  current_cooldown_iteration : ℕ
deriving DecidableEq

namespace CartesianMotionGenerator

/-- Cartesian `setProfile`
(src/include/motion/cartesian_motion_generator.hpp, lines 192–218):
translation axes 0–2 and quaternion axes 3–6 get differently scaled
absolute limits. -/
def setProfile (st : CartesianMotionGenerator)
    (velocity_rel acceleration_rel jerk_rel : ℚ) : CartesianMotionGenerator :=
  { st with input_para := { st.input_para with
      max_velocity := fun dof =>
        if (dof : ℕ) < 3 then
          (8/10) * (4/10) * st.panda.max_translation_velocity *
            st.panda.velocity_rel * velocity_rel
        else
          (1/2) * st.panda.max_rotation_velocity * st.panda.velocity_rel *
            velocity_rel
      max_acceleration := fun dof =>
        if (dof : ℕ) < 3 then
          (3/10) * (4/10) * (4/10) * st.panda.max_translation_acceleration *
            st.panda.acceleration_rel * acceleration_rel
        else
          (1/2) * (3/10) * st.panda.max_rotation_acceleration *
            st.panda.acceleration_rel * acceleration_rel
      max_jerk := fun dof =>
        if (dof : ℕ) < 3 then
          (3/10) * (4/10) * (4/10) * st.panda.max_translation_jerk *
            st.panda.jerk_rel * jerk_rel
        else
          (1/2) * (3/10) * st.panda.max_rotation_jerk * st.panda.jerk_rel *
            jerk_rel } }

/-- Cartesian `setInputTarget`
(src/include/motion/cartesian_motion_generator.hpp, lines 246–278): a
RELATIVE waypoint's pose is composed on the right of the measured pose
`O_T_EE` of the robot state passed to the loading sub-step; the resolved
pose is written as the solver target (its translation and re-normalized
quaternion in the source encoding) with zero target velocity and
acceleration, and the waypoint's profile multipliers are applied. -/
def setInputTarget (st : CartesianMotionGenerator) (robot_state : RobotState)
    (waypoint : CartesianMotion) : CartesianMotionGenerator :=
  setProfile
    { st with input_para := { st.input_para with
        target_pose :=
          if waypoint.reference_frame = ReferenceFrame.RELATIVE then
            robot_state.O_T_EE.comp waypoint.target
          else
            waypoint.target
        target_velocity := zero7
        target_acceleration := zero7 } }
    waypoint.velocity_rel waypoint.acceleration_rel waypoint.jerk_rel

/-- Cartesian `loadNextWaypoint`
(src/include/motion/cartesian_motion_generator.hpp, lines 280–295): pop the
front waypoint under the lock, or synthesize the hold target
`CartesianMotion(O_T_EE_c)` from the commanded pose when the queue is
empty, then install it via `setInputTarget`. -/
def loadNextWaypoint (st : CartesianMotionGenerator) (robot_state : RobotState) :
    CartesianMotionGenerator :=
  match st.waypoints with
  | [] =>
      setInputTarget
        { st with current_waypoint := some (CartesianMotion.hold robot_state.O_T_EE_c) }
        robot_state (CartesianMotion.hold robot_state.O_T_EE_c)
  | w :: rest =>
      setInputTarget
        { st with current_waypoint := some w, waypoints := rest }
        robot_state w

end CartesianMotionGenerator

/-! ## Basic frame lemmas about the joint generator's internal operations -/

namespace JointMotionGenerator

@[simp] lemma pass_to_input_waypoints (st : JointMotionGenerator) :
    st.pass_to_input.waypoints = st.waypoints := rfl

@[simp] lemma pass_to_input_reload (st : JointMotionGenerator) :
    st.pass_to_input.reload = st.reload := rfl

@[simp] lemma pass_to_input_keep_running (st : JointMotionGenerator) :
    st.pass_to_input.keep_running = st.keep_running := rfl

@[simp] lemma pass_to_input_motion_finished (st : JointMotionGenerator) :
    st.pass_to_input.motion_finished = st.motion_finished := rfl

@[simp] lemma pass_to_input_cooldown (st : JointMotionGenerator) :
    st.pass_to_input.current_cooldown_iteration = st.current_cooldown_iteration := rfl

@[simp] lemma pass_to_input_target (st : JointMotionGenerator) :
    st.pass_to_input.input_para.target_position = st.input_para.target_position := rfl

@[simp] lemma applyUpdate_input (otg : OTG) (st : JointMotionGenerator) :
    (applyUpdate otg st).input_para = st.input_para := rfl

@[simp] lemma applyUpdate_waypoints (otg : OTG) (st : JointMotionGenerator) :
    (applyUpdate otg st).waypoints = st.waypoints := rfl

@[simp] lemma applyUpdate_reload (otg : OTG) (st : JointMotionGenerator) :
    (applyUpdate otg st).reload = st.reload := rfl

@[simp] lemma applyUpdate_keep_running (otg : OTG) (st : JointMotionGenerator) :
    (applyUpdate otg st).keep_running = st.keep_running := rfl

@[simp] lemma applyUpdate_motion_finished (otg : OTG) (st : JointMotionGenerator) :
    (applyUpdate otg st).motion_finished = st.motion_finished := rfl

@[simp] lemma applyUpdate_cooldown (otg : OTG) (st : JointMotionGenerator) :
    (applyUpdate otg st).current_cooldown_iteration = st.current_cooldown_iteration := rfl

@[simp] lemma applyUpdate_result (otg : OTG) (st : JointMotionGenerator) :
    (applyUpdate otg st).result = (otg st.input_para).1 := rfl

@[simp] lemma applyUpdate_output (otg : OTG) (st : JointMotionGenerator) :
    (applyUpdate otg st).output_para = (otg st.input_para).2 := rfl

@[simp] lemma setProfile_target (st : JointMotionGenerator) (v a j : ℚ) :
    (st.setProfile v a j).input_para.target_position = st.input_para.target_position := rfl

@[simp] lemma setProfile_waypoints (st : JointMotionGenerator) (v a j : ℚ) :
    (st.setProfile v a j).waypoints = st.waypoints := rfl

@[simp] lemma setProfile_reload (st : JointMotionGenerator) (v a j : ℚ) :
    (st.setProfile v a j).reload = st.reload := rfl

@[simp] lemma setProfile_keep_running (st : JointMotionGenerator) (v a j : ℚ) :
    (st.setProfile v a j).keep_running = st.keep_running := rfl

@[simp] lemma setProfile_motion_finished (st : JointMotionGenerator) (v a j : ℚ) :
    (st.setProfile v a j).motion_finished = st.motion_finished := rfl

@[simp] lemma setProfile_cooldown (st : JointMotionGenerator) (v a j : ℚ) :
    (st.setProfile v a j).current_cooldown_iteration = st.current_cooldown_iteration := rfl

@[simp] lemma setInputTarget_target (st : JointMotionGenerator) (w : JointMotion) :
    (st.setInputTarget w).input_para.target_position = w.target := rfl

@[simp] lemma setInputTarget_waypoints (st : JointMotionGenerator) (w : JointMotion) :
    (st.setInputTarget w).waypoints = st.waypoints := rfl

@[simp] lemma setInputTarget_reload (st : JointMotionGenerator) (w : JointMotion) :
    (st.setInputTarget w).reload = st.reload := rfl

@[simp] lemma setInputTarget_keep_running (st : JointMotionGenerator) (w : JointMotion) :
    (st.setInputTarget w).keep_running = st.keep_running := rfl

@[simp] lemma setInputTarget_motion_finished (st : JointMotionGenerator) (w : JointMotion) :
    (st.setInputTarget w).motion_finished = st.motion_finished := rfl

@[simp] lemma setInputTarget_cooldown (st : JointMotionGenerator) (w : JointMotion) :
    (st.setInputTarget w).current_cooldown_iteration = st.current_cooldown_iteration := rfl

@[simp] lemma loadNextWaypoint_waypoints (st : JointMotionGenerator) (rs : RobotState) :
    (st.loadNextWaypoint rs).waypoints = st.waypoints.tail := by
  cases h : st.waypoints <;> simp [loadNextWaypoint, h]

@[simp] lemma loadNextWaypoint_reload (st : JointMotionGenerator) (rs : RobotState) :
    (st.loadNextWaypoint rs).reload = st.reload := by
  cases h : st.waypoints <;> simp [loadNextWaypoint, h]

@[simp] lemma loadNextWaypoint_keep_running (st : JointMotionGenerator) (rs : RobotState) :
    (st.loadNextWaypoint rs).keep_running = st.keep_running := by
  cases h : st.waypoints <;> simp [loadNextWaypoint, h]

@[simp] lemma loadNextWaypoint_motion_finished (st : JointMotionGenerator) (rs : RobotState) :
    (st.loadNextWaypoint rs).motion_finished = st.motion_finished := by
  cases h : st.waypoints <;> simp [loadNextWaypoint, h]

@[simp] lemma loadNextWaypoint_cooldown (st : JointMotionGenerator) (rs : RobotState) :
    (st.loadNextWaypoint rs).current_cooldown_iteration = st.current_cooldown_iteration := by
  cases h : st.waypoints <;> simp [loadNextWaypoint, h]

lemma loadNextWaypoint_target_of_empty (st : JointMotionGenerator) (rs : RobotState)
    (h : st.waypoints = []) :
    (st.loadNextWaypoint rs).input_para.target_position = rs.q_d := by
  simp [loadNextWaypoint, h, JointMotion.hold]

lemma loadNextWaypoint_target_of_cons (st : JointMotionGenerator) (rs : RobotState)
    (w : JointMotion) (rest : List JointMotion) (h : st.waypoints = w :: rest) :
    (st.loadNextWaypoint rs).input_para.target_position = w.target := by
  simp [loadNextWaypoint, h]

lemma reloadIfNeeded_of_not_reload (st : JointMotionGenerator) (rs : RobotState)
    (h : st.reload = false) : st.reloadIfNeeded rs = st := by
  simp [reloadIfNeeded, h]

@[simp] lemma reloadIfNeeded_keep_running (st : JointMotionGenerator) (rs : RobotState) :
    (st.reloadIfNeeded rs).keep_running = st.keep_running := by
  by_cases h : st.reload <;> simp [reloadIfNeeded, h]

@[simp] lemma reloadIfNeeded_motion_finished (st : JointMotionGenerator) (rs : RobotState) :
    (st.reloadIfNeeded rs).motion_finished = st.motion_finished := by
  by_cases h : st.reload <;> simp [reloadIfNeeded, h]

@[simp] lemma reloadIfNeeded_cooldown (st : JointMotionGenerator) (rs : RobotState) :
    (st.reloadIfNeeded rs).current_cooldown_iteration = st.current_cooldown_iteration := by
  by_cases h : st.reload <;> simp [reloadIfNeeded, h]

/-- With an empty queue and a clear reload flag, the sub-step loop never
changes the solver target (the queue cannot refill from inside the loop). -/
lemma stepLoop_target_stable (otg : OTG) (rs : RobotState) (n : ℕ) :
    ∀ (st : JointMotionGenerator), st.waypoints = [] → st.reload = false →
      (stepLoop otg rs st n).1.input_para.target_position = st.input_para.target_position ∧
      (stepLoop otg rs st n).1.waypoints = [] ∧
      (stepLoop otg rs st n).1.reload = false := by
  induction n with
  | zero => intro st hw hr; simp [stepLoop, hw, hr]
  | succ n ih =>
    intro st hw hr
    rw [stepLoop, reloadIfNeeded_of_not_reload st rs hr]
    split_ifs with hfin hemp hkr hcool herr
    · obtain ⟨h1, h2, h3⟩ := ih ((applyUpdate otg st).pass_to_input) (by simp [hw]) (by simp [hr])
      exact ⟨by simpa using h1, h2, h3⟩
    · exact ⟨by simp, by simp [hw], by simp [hr]⟩
    · exact ⟨by simp, by simp [hw], by simp [hr]⟩
    · exact absurd (by simpa using hw) hemp
    · exact ⟨by simp, by simp [hw], by simp [hr]⟩
    · obtain ⟨h1, h2, h3⟩ := ih ((applyUpdate otg st).pass_to_input) (by simp [hw]) (by simp [hr])
      exact ⟨by simpa using h1, h2, h3⟩

/-- When the sub-step loop starts with the reload flag set and an empty
queue, the first sub-step installs the synthesized hold target at the
commanded joint positions and it persists to the end of the call. -/
lemma stepLoop_reload_empty_target (otg : OTG) (rs : RobotState) (n : ℕ)
    (st : JointMotionGenerator) (hw : st.waypoints = []) (hr : st.reload = true) :
    (stepLoop otg rs st (n + 1)).1.input_para.target_position = rs.q_d := by
  rw [stepLoop]
  have hload : st.reloadIfNeeded rs = { st.loadNextWaypoint rs with reload := false } := by
    simp [reloadIfNeeded, hr]
  rw [hload]
  split_ifs with hfin hemp hkr hcool herr
  · obtain ⟨h1, h2, h3⟩ := stepLoop_target_stable otg rs n
      ((applyUpdate otg ({ st.loadNextWaypoint rs with reload := false } :
        JointMotionGenerator)).pass_to_input) (by simp [hw]) (by simp)
    rw [h1]; simp [loadNextWaypoint_target_of_empty st rs hw]
  · simp [loadNextWaypoint_target_of_empty st rs hw]
  · simp [loadNextWaypoint_target_of_empty st rs hw]
  · exact absurd (by simp [hw]) hemp
  · simp [loadNextWaypoint_target_of_empty st rs hw]
  · obtain ⟨h1, h2, h3⟩ := stepLoop_target_stable otg rs n
      ((applyUpdate otg ({ st.loadNextWaypoint rs with reload := false } :
        JointMotionGenerator)).pass_to_input) (by simp [hw]) (by simp)
    rw [h1]; simp [loadNextWaypoint_target_of_empty st rs hw]

/-- The sub-step loop increments the cooldown counter at most once: every
branch that increments it returns from `step` immediately. -/
lemma stepLoop_cooldown_le (otg : OTG) (rs : RobotState) (n : ℕ) :
    ∀ (st : JointMotionGenerator),
      (stepLoop otg rs st n).1.current_cooldown_iteration ≤
        st.current_cooldown_iteration + 1 := by
  induction n with
  | zero => intro st; simp [stepLoop, Nat.le_succ]
  | succ n ih =>
    intro st
    rw [stepLoop]
    split_ifs with hfin hemp hkr hcool herr
    · refine le_trans (ih _) ?_; simp
    · simp
    · simp [Nat.le_succ]
    · refine le_trans (ih _) ?_; simp
    · simp [Nat.le_succ]
    · refine le_trans (ih _) ?_; simp

/-- With `keep_running` set and a solver that only ever answers `Working` or
`Finished`, the sub-step loop neither sets the finished flag nor emits the
motion-finished sentinel. -/
lemma stepLoop_keep_running (otg : OTG) (rs : RobotState)
    (hotg : ∀ ip, (otg ip).1 = RuckigResult.Working ∨ (otg ip).1 = RuckigResult.Finished)
    (n : ℕ) :
    ∀ (st : JointMotionGenerator), st.keep_running = true →
      (stepLoop otg rs st n).1.keep_running = true ∧
      (stepLoop otg rs st n).1.motion_finished = st.motion_finished ∧
      (stepLoop otg rs st n).2.motion_finished = false := by
  induction n with
  | zero => intro st hk; simp [stepLoop, hk]
  | succ n ih =>
    intro st hk
    rw [stepLoop]
    split_ifs with hfin hemp hkr hcool herr
    · obtain ⟨h1, h2, h3⟩ := ih ((applyUpdate otg (st.reloadIfNeeded rs)).pass_to_input)
        (by simp [hk])
      exact ⟨h1, by simpa using h2, h3⟩
    · exact absurd (by simp [hk]) hkr
    · exact absurd (by simp [hk]) hkr
    · obtain ⟨h1, h2, h3⟩ := ih
        (({ applyUpdate otg (st.reloadIfNeeded rs) with reload := true }).pass_to_input)
        (by simp [hk])
      exact ⟨h1, by simpa using h2, h3⟩
    · rcases hotg ((st.reloadIfNeeded rs).input_para) with h | h <;>
        simp [applyUpdate, h] at herr hfin
    · obtain ⟨h1, h2, h3⟩ := ih ((applyUpdate otg (st.reloadIfNeeded rs)).pass_to_input)
        (by simp [hk])
      exact ⟨h1, by simpa using h2, h3⟩

/-- `step` in the non-finished state is the sub-step loop after the
elapsed-time update. -/
lemma step_not_finished_eq (otg : OTG) (st : JointMotionGenerator) (rs : RobotState)
    (p : ℕ) (hmf : st.motion_finished = false) :
    step otg st rs p =
      stepLoop otg rs { st with time := st.time + (p : ℚ) / 1000 } (max p 1) := by
  simp [step, hmf]

/-- `step` in the finished state, cooldown budget not yet exhausted: one
cooldown emission of the commanded joint positions. -/
lemma step_stopped_lt (otg : OTG) (st : JointMotionGenerator) (rs : RobotState)
    (p : ℕ) (hmf : st.motion_finished = true)
    (hc : st.current_cooldown_iteration < cooldown_iterations) :
    (step otg st rs p).2 = ⟨rs.q_d, false⟩ ∧
    (step otg st rs p).1.current_cooldown_iteration = st.current_cooldown_iteration + 1 ∧
    (step otg st rs p).1.motion_finished = true := by
  simp [step, hmf, hc]

/-- `step` in the finished state, cooldown budget exhausted: the
motion-finished sentinel wrapping the commanded joint positions. -/
lemma step_stopped_ge (otg : OTG) (st : JointMotionGenerator) (rs : RobotState)
    (p : ℕ) (hmf : st.motion_finished = true)
    (hc : cooldown_iterations ≤ st.current_cooldown_iteration) :
    (step otg st rs p).2 = ⟨rs.q_d, true⟩ ∧
    (step otg st rs p).1.current_cooldown_iteration = st.current_cooldown_iteration := by
  simp [step, hmf, Nat.not_lt.mpr hc]

/-- The natural-completion finishing phase: queue empty, reload clear, not
configured to keep running, and the solver reports `Finished`.  Below the
budget `step` emits the freshly computed command without the sentinel and
increments the counter; at the budget it sets the finished flag and returns
the sentinel wrapping the computed command. -/
lemma step_finishing (otg : OTG) (st : JointMotionGenerator) (rs : RobotState)
    (p : ℕ) (out : OTGOutput)
    (hmf : st.motion_finished = false) (hk : st.keep_running = false)
    (hw : st.waypoints = []) (hr : st.reload = false)
    (hotg : otg st.input_para = (RuckigResult.Finished, out)) :
    (st.current_cooldown_iteration < cooldown_iterations →
      (step otg st rs p).2 = ⟨out.new_position, false⟩ ∧
      (step otg st rs p).1.current_cooldown_iteration = st.current_cooldown_iteration + 1 ∧
      (step otg st rs p).1.motion_finished = false) ∧
    (cooldown_iterations ≤ st.current_cooldown_iteration →
      (step otg st rs p).2 = ⟨out.new_position, true⟩ ∧
      (step otg st rs p).1.motion_finished = true) := by
  rw [step_not_finished_eq otg st rs p hmf]
  obtain ⟨m, hm⟩ : ∃ m, max p 1 = m + 1 :=
    ⟨max p 1 - 1, (Nat.succ_pred_eq_of_pos (Nat.lt_of_lt_of_le Nat.zero_lt_one
      (Nat.le_max_right p 1))).symm⟩
  rw [hm, stepLoop]
  have hr' : ({ st with time := st.time + (p : ℚ) / 1000 } :
      JointMotionGenerator).reload = false := hr
  rw [reloadIfNeeded_of_not_reload _ rs hr']
  have hup : otg ({ st with time := st.time + (p : ℚ) / 1000 } :
      JointMotionGenerator).input_para = (RuckigResult.Finished, out) := hotg
  constructor
  · intro hc
    split_ifs with hfin hemp hkr hcool
    · exact absurd (by simpa using hk) (by simpa using hkr)
    · refine ⟨by simp [applyUpdate, hup], by simp, by simp [hmf]⟩
    · exact absurd (by simpa using hc) hcool
    · exact absurd (by simpa using hw) hemp
    · exact absurd (by simp [applyUpdate, hup]) hfin
    · exact absurd (by simp [applyUpdate, hup]) hfin
  · intro hc
    split_ifs with hfin hemp hkr hcool
    · exact absurd (by simpa using hk) (by simpa using hkr)
    · exact absurd (by simpa using hcool) (Nat.not_lt.mpr (by simpa using hc))
    · exact ⟨by simp [applyUpdate, hup], by simp⟩
    · exact absurd (by simpa using hw) hemp
    · exact absurd (by simp [applyUpdate, hup]) hfin
    · exact absurd (by simp [applyUpdate, hup]) hfin

lemma run_nil (otg : OTG) (st : JointMotionGenerator) :
    run otg st [] = (st, []) := rfl

lemma run_cons (otg : OTG) (st : JointMotionGenerator) (rs : RobotState) (p : ℕ)
    (tl : List (RobotState × ℕ)) :
    run otg st ((rs, p) :: tl) =
      ((run otg (step otg st rs p).1 tl).1,
        (step otg st rs p).2 :: (run otg (step otg st rs p).1 tl).2) := rfl

/-- Per `step` call the cooldown counter grows by at most one. -/
lemma step_cooldown_le (otg : OTG) (st : JointMotionGenerator) (rs : RobotState)
    (p : ℕ) :
    (step otg st rs p).1.current_cooldown_iteration ≤
      st.current_cooldown_iteration + 1 := by
  by_cases hmf : st.motion_finished
  · by_cases hc : st.current_cooldown_iteration < cooldown_iterations <;>
      simp [step, hmf, hc, Nat.le_succ]
  · rw [step_not_finished_eq otg st rs p (by simpa using hmf)]
    simpa using stepLoop_cooldown_le otg rs (max p 1)
      { st with time := st.time + (p : ℚ) / 1000 }

/-- A single `step` with `keep_running` set, a clear finished flag and an
error-free solver keeps the generator running and does not emit the
sentinel. -/
lemma step_keep_running (otg : OTG) (st : JointMotionGenerator) (rs : RobotState)
    (p : ℕ)
    (hotg : ∀ ip, (otg ip).1 = RuckigResult.Working ∨ (otg ip).1 = RuckigResult.Finished)
    (hk : st.keep_running = true) (hmf : st.motion_finished = false) :
    (step otg st rs p).1.keep_running = true ∧
    (step otg st rs p).1.motion_finished = false ∧
    (step otg st rs p).2.motion_finished = false := by
  rw [step_not_finished_eq otg st rs p hmf]
  obtain ⟨h1, h2, h3⟩ := stepLoop_keep_running otg rs hotg (max p 1)
    { st with time := st.time + (p : ℚ) / 1000 } (by simpa using hk)
  exact ⟨h1, by simpa [hmf] using h2, h3⟩

/-- When the sub-step loop starts with the reload flag set and exactly one
queued waypoint, the first sub-step pops it and installs its target, which
persists to the end of the call (the queue is then empty and cannot
refill from inside the loop). -/
lemma stepLoop_reload_single (otg : OTG) (rs : RobotState) (n : ℕ)
    (st : JointMotionGenerator) (w : JointMotion)
    (hw : st.waypoints = [w]) (hr : st.reload = true) :
    (stepLoop otg rs st (n + 1)).1.input_para.target_position = w.target := by
  rw [stepLoop]
  have hload : st.reloadIfNeeded rs = { st.loadNextWaypoint rs with reload := false } := by
    simp [reloadIfNeeded, hr]
  rw [hload]
  split_ifs with hfin hemp hkr hcool herr
  · obtain ⟨h1, h2, h3⟩ := stepLoop_target_stable otg rs n
      ((applyUpdate otg ({ st.loadNextWaypoint rs with reload := false } :
        JointMotionGenerator)).pass_to_input) (by simp [hw]) (by simp)
    rw [h1]; simp [loadNextWaypoint_target_of_cons st rs w [] hw]
  · simp [loadNextWaypoint_target_of_cons st rs w [] hw]
  · simp [loadNextWaypoint_target_of_cons st rs w [] hw]
  · exact absurd (by simp [hw]) hemp
  · simp [loadNextWaypoint_target_of_cons st rs w [] hw]
  · obtain ⟨h1, h2, h3⟩ := stepLoop_target_stable otg rs n
      ((applyUpdate otg ({ st.loadNextWaypoint rs with reload := false } :
        JointMotionGenerator)).pass_to_input) (by simp [hw]) (by simp)
    rw [h1]; simp [loadNextWaypoint_target_of_cons st rs w [] hw]

end JointMotionGenerator

/-- Composing a pose with a pure translation keeps the rotation and shifts
the translation by the rotated displacement. -/
lemma Pose.comp_ofTranslation (a : Pose) (d : Fin 3 → ℚ) :
    a.comp (Pose.ofTranslation d) =
      ⟨a.rot, fun i => (∑ j : Fin 3, a.rot i j * d j) + a.trans i⟩ := by
  unfold Pose.comp Pose.ofTranslation
  congr 1
  funext i k
  simp [mul_ite]

namespace CartesianMotionGenerator

@[simp] lemma setProfile_target_pose (st : CartesianMotionGenerator) (v a j : ℚ) :
    (st.setProfile v a j).input_para.target_pose = st.input_para.target_pose := rfl

@[simp] lemma setProfile_current_waypoint (st : CartesianMotionGenerator) (v a j : ℚ) :
    (st.setProfile v a j).current_waypoint = st.current_waypoint := rfl

@[simp] lemma setInputTarget_waypoint_kept (st : CartesianMotionGenerator)
    (rs : RobotState) (w : CartesianMotion) :
    (st.setInputTarget rs w).current_waypoint = st.current_waypoint := rfl

@[simp] lemma setInputTarget_target_pose (st : CartesianMotionGenerator)
    (rs : RobotState) (w : CartesianMotion) :
    (st.setInputTarget rs w).input_para.target_pose =
      if w.reference_frame = ReferenceFrame.RELATIVE then rs.O_T_EE.comp w.target
      else w.target := rfl

/-- Loading from a non-empty queue resolves the popped waypoint's target
against the measured pose of the loading sub-step when it is RELATIVE. -/
lemma loadNextWaypoint_target_pose_of_cons (st : CartesianMotionGenerator)
    (rs : RobotState) (w : CartesianMotion) (rest : List CartesianMotion)
    (h : st.waypoints = w :: rest) :
    (st.loadNextWaypoint rs).input_para.target_pose =
      if w.reference_frame = ReferenceFrame.RELATIVE then rs.O_T_EE.comp w.target
      else w.target := by
  simp [loadNextWaypoint, h]

/-- Loading from an empty queue synthesizes the hold target at the
commanded pose. -/
lemma loadNextWaypoint_of_empty (st : CartesianMotionGenerator) (rs : RobotState)
    (h : st.waypoints = []) :
    (st.loadNextWaypoint rs).input_para.target_pose = rs.O_T_EE_c ∧
    (st.loadNextWaypoint rs).current_waypoint = some (CartesianMotion.hold rs.O_T_EE_c) := by
  constructor <;> simp [loadNextWaypoint, h, CartesianMotion.hold]

end CartesianMotionGenerator

/-! ## Concrete fixtures used by witnesses and counterexamples -/

/-- A session object with unit global scale factors and uniform limits. -/
def panda0 : Panda := ⟨1, 1, 1, fun _ => 2, fun _ => 2, fun _ => 2, 2, 2, 2, 2, 2, 2⟩

/-- An all-zero OTG input block. -/
def in0 : OTGInput := ⟨zero7, zero7, zero7, zero7, zero7, zero7, zero7, zero7, zero7⟩

/-- An all-zero OTG output block. -/
def out0 : OTGOutput := ⟨zero7, zero7, zero7⟩

/-- An output block whose command is the constant-3 joint vector. -/
def out3 : OTGOutput := ⟨fun _ => 3, zero7, zero7⟩

/-- A measured robot state at the origin. -/
def rs0 : RobotState := ⟨zero7, zero7, Pose.ofTranslation (fun _ => 0), Pose.ofTranslation (fun _ => 0)⟩

/-- Solver oracle that always reports `Working`. -/
def otgWorking : OTG := fun _ => (RuckigResult.Working, out0)

/-- Solver oracle that always reports `Finished`. -/
def otgFinished : OTG := fun _ => (RuckigResult.Finished, out3)

/-- Solver oracle that always reports the generic `Error`. -/
def otgGenericError : OTG := fun _ => (RuckigResult.Error, out3)

/-- Solver oracle that always reports `ErrorInvalidInput` — ruckig's code for
infeasible limits or a malformed target. -/
def otgInvalidInput : OTG := fun _ => (RuckigResult.ErrorInvalidInput, out3)

/-- A generator mid-flight toward the constant-5 joint target: the segment
is loaded (reload flag clear), the queue is empty, `keep_running = false`. -/
def gInflight : JointMotionGenerator :=
  ⟨panda0, 0, [], some (JointMotion.hold (fun _ => 5)),
    { in0 with target_position := fun _ => 5 }, out0, RuckigResult.Working,
    false, false, false, 0⟩

/-- A generator mid-flight toward the constant-5 target with one pending
waypoint (constant-7 target) already queued and the reload flag clear. -/
def gQueued : JointMotionGenerator :=
  ⟨panda0, 0, [JointMotion.hold (fun _ => 7)], some (JointMotion.hold (fun _ => 5)),
    { in0 with target_position := fun _ => 5 }, out0, RuckigResult.Working,
    false, false, false, 0⟩

/-- A freshly enqueued waypoint with the constant-9 target. -/
def wNew : JointMotion := JointMotion.hold (fun _ => 9)

/-- The mid-flight generator configured to keep running when the queue
empties. -/
def gKeepRunning : JointMotionGenerator := { gInflight with keep_running := true }

/-- A measured robot state whose measured joint positions `q` differ from
the commanded `q_d`. -/
def rsDivergent : RobotState :=
  ⟨fun _ => 1, fun _ => 2, Pose.ofTranslation (fun _ => 0),
    Pose.ofTranslation (fun _ => 0)⟩

/-- A Cartesian generator holding one RELATIVE pure-translation waypoint. -/
def cartRelative : CartesianMotion :=
  ⟨Pose.ofTranslation (fun _ => 1), ReferenceFrame.RELATIVE, 1, 1, 1⟩

/-- The pose reached at the end of the first Cartesian segment in the
two-waypoint scenario: identity rotation, translation (1, 2, 3). -/
def poseFirstDone : Pose :=
  Pose.ofTranslation (fun i => (i : ℕ) + 1)

/-- The session's original start pose in the two-waypoint scenario,
distinct from the first segment's final pose. -/
def poseStart : Pose := Pose.ofTranslation (fun _ => 0)

/-- The robot state observed when the second (RELATIVE) waypoint loads:
the measured pose is the first segment's final pose. -/
def rsAtFirstDone : RobotState :=
  ⟨zero7, zero7, poseFirstDone, poseFirstDone⟩

/-- A Cartesian generator about to load the RELATIVE waypoint. -/
def cg0 : CartesianMotionGenerator :=
  ⟨panda0, [cartRelative], none,
    ⟨poseStart, zero7, zero7, poseStart, zero7, zero7, zero7, zero7, zero7⟩,
    true, false, false, 0⟩

/-! ## Claims -/

/-- C1, counterexample.  The claim that `clearWaypoints()` leaves the
currently loaded target and the in-flight OTG input parameters unchanged is
false: on a generator mid-flight toward the constant-5 target with one
pending waypoint, `clearWaypoints()` flips the reload flag from `false` to
`true`, and the very next `step` call replaces the in-flight target by the
hold target at the commanded joint positions instead of continuing it. -/
theorem clearWaypoints_counterexample :
    gQueued.reload = false ∧
    gQueued.clearWaypoints.waypoints = [] ∧
    gQueued.clearWaypoints.reload = true ∧
    (JointMotionGenerator.step otgWorking gQueued.clearWaypoints rs0 1).1.input_para.target_position
      ≠ gQueued.input_para.target_position := by
  refine ⟨rfl, rfl, rfl, by decide⟩

/-- C1 (amended): `clearWaypoints()` empties the queue under the lock but
also sets the reload flag, so the next `step` call does not continue the
in-flight segment: its first sub-step reloads and — the queue now being
empty — installs the zero-displacement hold target at the commanded joint
positions in place of the in-flight target. -/
theorem clearWaypoints_empties_and_reloads (otg : OTG) (st : JointMotionGenerator)
    (rs : RobotState) (p : ℕ) (hmf : st.motion_finished = false) :
    st.clearWaypoints.waypoints = [] ∧
    st.clearWaypoints.reload = true ∧
    (JointMotionGenerator.step otg st.clearWaypoints rs p).1.input_para.target_position
      = rs.q_d := by
  refine ⟨rfl, rfl, ?_⟩
  rw [JointMotionGenerator.step_not_finished_eq otg st.clearWaypoints rs p hmf]
  obtain ⟨m, hm⟩ : ∃ m, max p 1 = m + 1 := ⟨max p 1 - 1, by omega⟩
  rw [hm]
  exact JointMotionGenerator.stepLoop_reload_empty_target otg rs m _
    (by simp [JointMotionGenerator.clearWaypoints]) rfl

/-- Witness for `clearWaypoints_empties_and_reloads` at a concrete
mid-flight generator. -/
theorem clearWaypoints_empties_and_reloads_witness :
    gQueued.motion_finished = false ∧
    (JointMotionGenerator.step otgWorking gQueued.clearWaypoints rs0 1).1.input_para.target_position
      = rs0.q_d :=
  ⟨rfl, (clearWaypoints_empties_and_reloads otgWorking gQueued rs0 1 rfl).2.2⟩

/-- C2, counterexample.  The claim that the reload flag is set only when
the queue was empty — so that enqueuing never disturbs a segment loaded
mid-flight — is false: on a generator mid-flight toward the constant-5
target with a non-empty queue and the reload flag clear, `addWaypoint`
sets the reload flag, and the next sub-step loads the queue front's
constant-7 target instead of continuing the in-flight segment. -/
theorem addWaypoint_counterexample :
    gQueued.reload = false ∧
    gQueued.waypoints ≠ [] ∧
    (gQueued.addWaypoint wNew).reload = true ∧
    (JointMotionGenerator.step otgWorking (gQueued.addWaypoint wNew) rs0 1).1.input_para.target_position
      = (fun _ => (7 : ℚ)) ∧
    (fun _ => (7 : ℚ)) ≠ gQueued.input_para.target_position := by
  refine ⟨rfl, by decide, rfl, by decide, by decide⟩

/-- C2 (amended): `addWaypoint` and `addWaypoints` append under the lock
and set the reload flag unconditionally — not only when the queue was
empty — so the next sub-step always reloads; when the waypoint is enqueued
onto an empty queue its target is installed by the next `step` call. -/
theorem addWaypoint_appends_and_always_reloads (st : JointMotionGenerator)
    (w : JointMotion) (ws : List JointMotion) (otg : OTG) (rs : RobotState)
    (p : ℕ) (hw : st.waypoints = []) (hmf : st.motion_finished = false) :
    (st.addWaypoint w).waypoints = st.waypoints ++ [w] ∧
    (st.addWaypoint w).reload = true ∧
    (st.addWaypoints ws).waypoints = st.waypoints ++ ws ∧
    (st.addWaypoints ws).reload = true ∧
    (JointMotionGenerator.step otg (st.addWaypoint w) rs p).1.input_para.target_position
      = w.target := by
  refine ⟨rfl, rfl, rfl, rfl, ?_⟩
  rw [JointMotionGenerator.step_not_finished_eq otg (st.addWaypoint w) rs p hmf]
  obtain ⟨m, hm⟩ : ∃ m, max p 1 = m + 1 := ⟨max p 1 - 1, by omega⟩
  rw [hm]
  exact JointMotionGenerator.stepLoop_reload_single otg rs m _ w
    (by simp [JointMotionGenerator.addWaypoint, hw]) rfl

/-- Witness for `addWaypoint_appends_and_always_reloads` at a concrete
generator with an empty queue. -/
theorem addWaypoint_appends_and_always_reloads_witness :
    gInflight.waypoints = [] ∧ gInflight.motion_finished = false ∧
    (JointMotionGenerator.step otgWorking (gInflight.addWaypoint wNew) rs0 1).1.input_para.target_position
      = wNew.target :=
  ⟨rfl, rfl,
    (addWaypoint_appends_and_always_reloads gInflight wNew [] otgWorking rs0 1
      rfl rfl).2.2.2.2⟩

/-- C3, the code evaluated at the failing input.  When the solver reports
`ErrorInvalidInput` — ruckig's result for infeasible limits or a malformed
target — the joint generator, whose error check compares against the
generic `Error` value only, does not enter the finishing phase: the
finished flag stays clear, no sentinel is emitted, the generator still
reports running, and the errored output is passed back as the next
sub-step's input (the same segment is retried).  The generic `Error`
value, by contrast, does produce the immediate sentinel the claim
describes. -/
theorem joint_generator_misses_specific_error_codes :
    (JointMotionGenerator.step otgInvalidInput gInflight rs0 1).1.motion_finished = false ∧
    (JointMotionGenerator.step otgInvalidInput gInflight rs0 1).2.motion_finished = false ∧
    JointMotionGenerator.isRunning
      (JointMotionGenerator.step otgInvalidInput gInflight rs0 1).1 = true ∧
    (JointMotionGenerator.step otgInvalidInput gInflight rs0 1).1.input_para.current_position
      = out3.new_position ∧
    (JointMotionGenerator.step otgGenericError gInflight rs0 1).1.motion_finished = true ∧
    (JointMotionGenerator.step otgGenericError gInflight rs0 1).2.motion_finished = true := by
  refine ⟨by decide, by decide, by decide, by decide, by decide, by decide⟩

/-- C4: the cooldown budget is 5 iterations and no `step` call increments
the cooldown counter more than once.  In the natural-completion finishing
phase (queue empty, not keeping running, solver reports `Finished`), each
`step` below the budget emits the last computed command without the
sentinel and increments the counter; only once the budget is exhausted
does `step` return the motion-finished sentinel wrapping the last valid
command.  In the post-`stop()` finishing phase the same counter governs the
emission of the commanded joint positions before the sentinel. -/
theorem cooldown_budget_five_then_sentinel (otg : OTG) (st : JointMotionGenerator)
    (rs : RobotState) (p : ℕ) (out : OTGOutput)
    (hmf : st.motion_finished = false) (hk : st.keep_running = false)
    (hw : st.waypoints = []) (hr : st.reload = false)
    (hotg : otg st.input_para = (RuckigResult.Finished, out)) :
    cooldown_iterations = 5 ∧
    (∀ (otg2 : OTG) (st2 : JointMotionGenerator) (rs2 : RobotState) (p2 : ℕ),
      (JointMotionGenerator.step otg2 st2 rs2 p2).1.current_cooldown_iteration ≤
        st2.current_cooldown_iteration + 1) ∧
    (st.current_cooldown_iteration < cooldown_iterations →
      (JointMotionGenerator.step otg st rs p).2 = ⟨out.new_position, false⟩ ∧
      (JointMotionGenerator.step otg st rs p).1.current_cooldown_iteration =
        st.current_cooldown_iteration + 1 ∧
      (JointMotionGenerator.step otg st rs p).1.motion_finished = false) ∧
    (cooldown_iterations ≤ st.current_cooldown_iteration →
      (JointMotionGenerator.step otg st rs p).2 = ⟨out.new_position, true⟩ ∧
      (JointMotionGenerator.step otg st rs p).1.motion_finished = true) ∧
    (∀ (st3 : JointMotionGenerator) (rs3 : RobotState) (p3 : ℕ),
      st3.motion_finished = true →
      (st3.current_cooldown_iteration < cooldown_iterations →
        (JointMotionGenerator.step otg st3 rs3 p3).2 = ⟨rs3.q_d, false⟩ ∧
        (JointMotionGenerator.step otg st3 rs3 p3).1.current_cooldown_iteration =
          st3.current_cooldown_iteration + 1) ∧
      (cooldown_iterations ≤ st3.current_cooldown_iteration →
        (JointMotionGenerator.step otg st3 rs3 p3).2 = ⟨rs3.q_d, true⟩)) := by
  obtain ⟨hlt, hge⟩ := JointMotionGenerator.step_finishing otg st rs p out hmf hk hw hr hotg
  refine ⟨rfl, fun otg2 st2 rs2 p2 =>
    JointMotionGenerator.step_cooldown_le otg2 st2 rs2 p2, hlt, hge, ?_⟩
  intro st3 rs3 p3 h3
  exact ⟨fun hc =>
      ⟨(JointMotionGenerator.step_stopped_lt otg st3 rs3 p3 h3 hc).1,
        (JointMotionGenerator.step_stopped_lt otg st3 rs3 p3 h3 hc).2.1⟩,
    fun hc => (JointMotionGenerator.step_stopped_ge otg st3 rs3 p3 h3 hc).1⟩

/-- Witness for `cooldown_budget_five_then_sentinel` at a concrete finishing
generator below the budget and at one with the budget exhausted. -/
theorem cooldown_budget_five_then_sentinel_witness :
    gInflight.current_cooldown_iteration < cooldown_iterations ∧
    (JointMotionGenerator.step otgFinished gInflight rs0 1).2 =
      ⟨out3.new_position, false⟩ ∧
    cooldown_iterations ≤
      ({ gInflight with current_cooldown_iteration := 5 } :
        JointMotionGenerator).current_cooldown_iteration ∧
    (JointMotionGenerator.step otgFinished
        { gInflight with current_cooldown_iteration := 5 } rs0 1).2 =
      ⟨out3.new_position, true⟩ :=
  ⟨by decide,
    ((cooldown_budget_five_then_sentinel otgFinished gInflight rs0 1 out3
      rfl rfl rfl rfl rfl).2.2.1 (by decide)).1,
    by decide,
    ((cooldown_budget_five_then_sentinel otgFinished
      { gInflight with current_cooldown_iteration := 5 } rs0 1 out3
      rfl rfl rfl rfl rfl).2.2.2.1 (by decide)).1⟩

/-- C5: a Cartesian waypoint tagged RELATIVE is resolved, at the sub-step
in which it loads, by composing the measured pose active at that moment
with the waypoint's relative transform; for a pure translation the
resolved target keeps the active pose's rotation and shifts its
translation by the rotated displacement, and it differs from any pose
(such as the session's original start pose) that differs from this
composition. -/
theorem relative_target_resolution (st : CartesianMotionGenerator)
    (rs : RobotState) (w : CartesianMotion) (rest : List CartesianMotion)
    (P1 : Pose) (d : Fin 3 → ℚ)
    (hq : st.waypoints = w :: rest)
    (hf : w.reference_frame = ReferenceFrame.RELATIVE)
    (hp : rs.O_T_EE = P1) :
    (st.loadNextWaypoint rs).input_para.target_pose = P1.comp w.target ∧
    (w.target = Pose.ofTranslation d →
      (st.loadNextWaypoint rs).input_para.target_pose =
        ⟨P1.rot, fun i => (∑ j : Fin 3, P1.rot i j * d j) + P1.trans i⟩) ∧
    (∀ P0 : Pose, P1.comp w.target ≠ P0 →
      (st.loadNextWaypoint rs).input_para.target_pose ≠ P0) := by
  have h1 : (st.loadNextWaypoint rs).input_para.target_pose = P1.comp w.target := by
    rw [CartesianMotionGenerator.loadNextWaypoint_target_pose_of_cons st rs w rest hq,
      hf, hp]
    simp
  refine ⟨h1, ?_, ?_⟩
  · intro ht
    rw [h1, ht, Pose.comp_ofTranslation]
  · intro P0 hne
    rw [h1]
    exact hne

/-- Witness for `relative_target_resolution`: the two-waypoint scenario at
the moment the first segment has completed — the resolved target is the
first segment's final pose composed with the relative translation, and it
is not the session's original start pose. -/
theorem relative_target_resolution_witness :
    cg0.waypoints = [cartRelative] ∧
    cartRelative.reference_frame = ReferenceFrame.RELATIVE ∧
    (cg0.loadNextWaypoint rsAtFirstDone).input_para.target_pose =
      poseFirstDone.comp cartRelative.target ∧
    (cg0.loadNextWaypoint rsAtFirstDone).input_para.target_pose ≠ poseStart :=
  ⟨rfl, rfl,
    (relative_target_resolution cg0 rsAtFirstDone cartRelative [] poseFirstDone
      (fun _ => 1) rfl rfl rfl).1,
    (relative_target_resolution cg0 rsAtFirstDone cartRelative [] poseFirstDone
      (fun _ => 1) rfl rfl rfl).2.2 poseStart (by
        intro h
        have h0 := congrArg (fun P => P.trans 0) h
        simp [poseFirstDone, poseStart, cartRelative, Pose.comp, Pose.ofTranslation,
          Fin.sum_univ_three] at h0)⟩

/-- C6, counterexample.  On a robot state whose measured positions `q`
differ from the commanded `q_d`, `start` seeds the solver's current
position from `q` but sets the initial target to `q_d`: the initial
segment is not the claimed zero-displacement segment from the current
position. -/
theorem start_target_counterexample :
    (gInflight.start panda0 rsDivergent).input_para.current_position = rsDivergent.q ∧
    (gInflight.start panda0 rsDivergent).input_para.target_position = rsDivergent.q_d ∧
    (gInflight.start panda0 rsDivergent).input_para.target_position ≠
      (gInflight.start panda0 rsDivergent).input_para.current_position := by
  refine ⟨by decide, by decide, by decide⟩

/-- C6 (amended): `start` seeds the solver's current state from the
measured positions `q` with zero velocity and acceleration, sets the
initial target to the commanded positions `q_d` with zero target velocity
and acceleration — a zero-displacement segment only when commanded and
measured positions agree — and applies unit (1.0) motion-profile scaling
on top of the session's global factors. -/
theorem start_seeds_and_unit_profile (st : JointMotionGenerator) (robot : Panda)
    (rs : RobotState) :
    (st.start robot rs).input_para.current_position = rs.q ∧
    (st.start robot rs).input_para.current_velocity = zero7 ∧
    (st.start robot rs).input_para.current_acceleration = zero7 ∧
    (st.start robot rs).input_para.target_position = rs.q_d ∧
    (st.start robot rs).input_para.target_velocity = zero7 ∧
    (st.start robot rs).input_para.target_acceleration = zero7 ∧
    (st.start robot rs).input_para.max_velocity =
      (fun dof => robot.max_joint_velocity dof * robot.velocity_rel * 1) ∧
    (st.start robot rs).input_para.max_acceleration =
      (fun dof => (3/10) * robot.max_joint_acceleration dof * robot.acceleration_rel * 1) ∧
    (st.start robot rs).input_para.max_jerk =
      (fun dof => (3/10) * robot.max_joint_jerk dof * robot.jerk_rel * 1) ∧
    (rs.q_d = rs.q →
      (st.start robot rs).input_para.target_position =
        (st.start robot rs).input_para.current_position) := by
  exact ⟨rfl, rfl, rfl, rfl, rfl, rfl, rfl, rfl, rfl, fun h => h⟩

/-- Witness for `start_seeds_and_unit_profile` at a robot state whose
commanded and measured positions agree. -/
theorem start_seeds_and_unit_profile_witness :
    rs0.q_d = rs0.q ∧
    (gInflight.start panda0 rs0).input_para.target_position =
      (gInflight.start panda0 rs0).input_para.current_position :=
  ⟨rfl, (start_seeds_and_unit_profile gInflight panda0 rs0).2.2.2.2.2.2.2.2.2 rfl⟩

/-- C7: with `keep_running = true`, as long as `stop()` is not called and
the solver only ever reports `Working` or `Finished`, a run of `step`
calls never emits the motion-finished sentinel — even when the waypoint
queue empties — the finished flag stays clear and `isRunning()` stays
true. -/
theorem keep_running_never_emits_sentinel (otg : OTG) (st : JointMotionGenerator)
    (inputs : List (RobotState × ℕ))
    (hotg : ∀ ip, (otg ip).1 = RuckigResult.Working ∨ (otg ip).1 = RuckigResult.Finished)
    (hk : st.keep_running = true) (hmf : st.motion_finished = false) :
    (∀ cmd ∈ (JointMotionGenerator.run otg st inputs).2, cmd.motion_finished = false) ∧
    (JointMotionGenerator.run otg st inputs).1.motion_finished = false ∧
    JointMotionGenerator.isRunning (JointMotionGenerator.run otg st inputs).1 = true := by
  induction inputs generalizing st with
  | nil =>
    rw [JointMotionGenerator.run_nil]
    exact ⟨fun cmd hc => absurd hc (List.not_mem_nil cmd), hmf,
      by simp [JointMotionGenerator.isRunning, hmf]⟩
  | cons hd tl ih =>
    obtain ⟨rs, p⟩ := hd
    obtain ⟨h1, h2, h3⟩ := JointMotionGenerator.step_keep_running otg st rs p hotg hk hmf
    obtain ⟨ih1, ih2, ih3⟩ := ih (JointMotionGenerator.step otg st rs p).1 h1 h2
    rw [JointMotionGenerator.run_cons]
    refine ⟨?_, ih2, ih3⟩
    intro cmd hc
    rcases List.mem_cons.mp hc with h | h
    · rw [h]; exact h3
    · exact ih1 cmd h

/-- Witness for `keep_running_never_emits_sentinel` over a concrete
two-tick run with an empty queue. -/
theorem keep_running_never_emits_sentinel_witness :
    gKeepRunning.keep_running = true ∧
    (JointMotionGenerator.run otgWorking gKeepRunning [(rs0, 1), (rs0, 2)]).1.motion_finished
      = false ∧
    JointMotionGenerator.isRunning
      (JointMotionGenerator.run otgWorking gKeepRunning [(rs0, 1), (rs0, 2)]).1 = true :=
  ⟨rfl,
    (keep_running_never_emits_sentinel otgWorking gKeepRunning [(rs0, 1), (rs0, 2)]
      (fun _ => Or.inl rfl) rfl rfl).2.1,
    (keep_running_never_emits_sentinel otgWorking gKeepRunning [(rs0, 1), (rs0, 2)]
      (fun _ => Or.inl rfl) rfl rfl).2.2⟩

/-- C8: a reload sub-step that finds the queue empty does not fail — the
joint variant synthesizes the zero-displacement hold target
`JointMotion(q_d)` from the commanded joint positions and the Cartesian
variant the hold target `CartesianMotion(O_T_EE_c)` at the commanded pose,
with zero target velocity and acceleration, so the real-time loop always
has a well-defined segment. -/
theorem queue_empty_reload_synthesizes_hold (st : JointMotionGenerator)
    (stc : CartesianMotionGenerator) (rs : RobotState)
    (hw : st.waypoints = []) (hwc : stc.waypoints = []) :
    (st.loadNextWaypoint rs).input_para.target_position = rs.q_d ∧
    (st.loadNextWaypoint rs).input_para.target_velocity = zero7 ∧
    (st.loadNextWaypoint rs).input_para.target_acceleration = zero7 ∧
    (st.loadNextWaypoint rs).current_waypoint = some (JointMotion.hold rs.q_d) ∧
    (stc.loadNextWaypoint rs).input_para.target_pose = rs.O_T_EE_c ∧
    (stc.loadNextWaypoint rs).current_waypoint =
      some (CartesianMotion.hold rs.O_T_EE_c) := by
  obtain ⟨hc1, hc2⟩ := CartesianMotionGenerator.loadNextWaypoint_of_empty stc rs hwc
  refine ⟨JointMotionGenerator.loadNextWaypoint_target_of_empty st rs hw,
    ?_, ?_, ?_, hc1, hc2⟩ <;>
    simp [JointMotionGenerator.loadNextWaypoint, hw,
      JointMotionGenerator.setInputTarget, JointMotionGenerator.setProfile]

/-- Witness for `queue_empty_reload_synthesizes_hold` at concrete
generators with empty queues. -/
theorem queue_empty_reload_synthesizes_hold_witness :
    gInflight.waypoints = [] ∧
    (gInflight.loadNextWaypoint rs0).input_para.target_position = rs0.q_d ∧
    (({ cg0 with waypoints := [] } :
        CartesianMotionGenerator).loadNextWaypoint rs0).input_para.target_pose =
      rs0.O_T_EE_c :=
  ⟨rfl,
    (queue_empty_reload_synthesizes_hold gInflight { cg0 with waypoints := [] }
      rs0 rfl rfl).1,
    (queue_empty_reload_synthesizes_hold gInflight { cg0 with waypoints := [] }
      rs0 rfl rfl).2.2.2.2.1⟩

/-- C9, counterexample.  The claim that `isRunning()` stays true throughout
the FINISHING cooldown entered after `stop()` is false: immediately after
`stop()` the generator is still in its cooldown phase — the next `step`
emits a command without the sentinel and ticks the cooldown counter — yet
`isRunning()` already returns false. -/
theorem isRunning_false_during_stop_cooldown_counterexample :
    JointMotionGenerator.isRunning (gInflight.stop rs0) = false ∧
    (JointMotionGenerator.step otgWorking (gInflight.stop rs0) rs0 1).2.motion_finished
      = false ∧
    (JointMotionGenerator.step otgWorking (gInflight.stop rs0) rs0 1).1.current_cooldown_iteration
      = 1 := by
  refine ⟨rfl, by decide, by decide⟩

/-- C9 (amended): `isRunning()` returns the negation of the finished flag.
It stays true through the natural-completion cooldown phase (below budget
the step after segment completion emits no sentinel and the generator
still reports running), but it turns false as soon as `stop()` is called —
already during the post-stop cooldown, before the sentinel has been
returned. -/
theorem isRunning_tracks_finished_flag (st : JointMotionGenerator) (rs : RobotState)
    (otg : OTG) (p : ℕ) (out : OTGOutput)
    (hmf : st.motion_finished = false) (hk : st.keep_running = false)
    (hw : st.waypoints = []) (hr : st.reload = false)
    (hotg : otg st.input_para = (RuckigResult.Finished, out))
    (hc : st.current_cooldown_iteration < cooldown_iterations) :
    JointMotionGenerator.isRunning st = !st.motion_finished ∧
    JointMotionGenerator.isRunning (st.stop rs) = false ∧
    JointMotionGenerator.isRunning (JointMotionGenerator.step otg st rs p).1 = true ∧
    (JointMotionGenerator.step otg st rs p).2.motion_finished = false := by
  obtain ⟨hcmd, hcnt, hmf2⟩ :=
    (JointMotionGenerator.step_finishing otg st rs p out hmf hk hw hr hotg).1 hc
  refine ⟨rfl, rfl, by simp [JointMotionGenerator.isRunning, hmf2], by rw [hcmd]⟩

/-- Witness for `isRunning_tracks_finished_flag` at a concrete generator in
the natural-completion cooldown. -/
theorem isRunning_tracks_finished_flag_witness :
    JointMotionGenerator.isRunning (gInflight.stop rs0) = false ∧
    JointMotionGenerator.isRunning
      (JointMotionGenerator.step otgFinished gInflight rs0 1).1 = true :=
  ⟨(isRunning_tracks_finished_flag gInflight rs0 otgFinished 1 out3
      rfl rfl rfl rfl rfl (by decide)).2.1,
    (isRunning_tracks_finished_flag gInflight rs0 otgFinished 1 out3
      rfl rfl rfl rfl rfl (by decide)).2.2.1⟩

/-- C10: `start` leaves the cooldown counter unchanged — it arms the reload
flag, clears the finished flag, reseeds the kinematic state and the profile
scaling, and touches neither the queue, the loaded waypoint nor the
counter.  Consequently a generator whose counter has already reached the
budget returns the motion-finished sentinel immediately, with zero cooldown
emissions, when a later run reaches natural completion. -/
theorem start_preserves_cooldown_counter (st : JointMotionGenerator)
    (robot : Panda) (rs : RobotState) (otg : OTG) (st2 : JointMotionGenerator)
    (rs2 : RobotState) (p : ℕ) (out : OTGOutput)
    (hmf : st2.motion_finished = false) (hk : st2.keep_running = false)
    (hw : st2.waypoints = []) (hr : st2.reload = false)
    (hotg : otg st2.input_para = (RuckigResult.Finished, out))
    (hc : cooldown_iterations ≤ st2.current_cooldown_iteration) :
    (st.start robot rs).current_cooldown_iteration = st.current_cooldown_iteration ∧
    (st.start robot rs).reload = true ∧
    (st.start robot rs).motion_finished = false ∧
    (st.start robot rs).waypoints = st.waypoints ∧
    (st.start robot rs).current_waypoint = st.current_waypoint ∧
    (JointMotionGenerator.step otg st2 rs2 p).2 = ⟨out.new_position, true⟩ ∧
    (JointMotionGenerator.step otg st2 rs2 p).1.motion_finished = true := by
  obtain ⟨hcmd, hfin⟩ :=
    (JointMotionGenerator.step_finishing otg st2 rs2 p out hmf hk hw hr hotg).2 hc
  exact ⟨rfl, rfl, rfl, rfl, rfl, hcmd, hfin⟩

/-- Witness for `start_preserves_cooldown_counter`: a restart and an
exhausted-budget generator that finishes with the immediate sentinel. -/
theorem start_preserves_cooldown_counter_witness :
    (gQueued.start panda0 rs0).current_cooldown_iteration =
      gQueued.current_cooldown_iteration ∧
    (JointMotionGenerator.step otgFinished
        { gInflight with current_cooldown_iteration := 5 } rs0 1).2 =
      ⟨out3.new_position, true⟩ :=
  ⟨(start_preserves_cooldown_counter gQueued panda0 rs0 otgFinished
      { gInflight with current_cooldown_iteration := 5 } rs0 1 out3
      rfl rfl rfl rfl rfl (by decide)).1,
    (start_preserves_cooldown_counter gQueued panda0 rs0 otgFinished
      { gInflight with current_cooldown_iteration := 5 } rs0 1 out3
      rfl rfl rfl rfl rfl (by decide)).2.2.2.2.2.1⟩

end Motion
